import Mathlib

/-!
Verification of the Action Execution Engine of `curator/actions.py`.

Each action class is embedded as a structure; `do_action` (the single
`execute` entry point) becomes a pure function from the state of the action and
an oracle for cluster-visible state to the ordered trace of calls issued
against the cluster together with the normal/exceptional outcome.

Utility and collection code imported by `actions.py` (`curator/utils.py`,
`curator/indexlist.py`, `curator/snapshotlist.py`, `curator/exceptions.py`)
is not part of the source tree; those few helpers are modelled from the
specification and carry a doc comment saying so.
-/

namespace Curator

/-- Exception kinds raised by `actions.py`.  The exception hierarchy itself
(`curator/exceptions.py`) is absent from the source tree; the constructors
below are exactly the classes named at the raise sites of `actions.py`,
plus `emptyCollection` for the collection guard (see `empty_list_error`),
each carrying its message string. -/
inductive CuratorExc where
  | missingArgument (msg : String)
  | typeErr (msg : String)
  | valueErr (msg : String)
  | actionError (msg : String)
  | emptyCollection (msg : String)
  | snapshotInProgress (msg : String)
  | curatorException (msg : String)
  | failedExecution (msg : String)
  deriving Repr, DecidableEq

/-- The message carried by an exception. -/
def CuratorExc.text : CuratorExc → String
  | .missingArgument m => m
  | .typeErr m => m
  | .valueErr m => m
  | .actionError m => m
  | .emptyCollection m => m
  | .snapshotInProgress m => m
  | .curatorException m => m
  | .failedExecution m => m

/-- Modelled from the spec: `report_failure` (`curator/utils.py`, absent from
the source tree) uniformly catches any exception surfaced by a cluster call,
logs it, and re-raises it as the uniform execution failure carrying the
causing exception detail (spec section 7, ExecutionFailure). -/
def report_failure (e : CuratorExc) : CuratorExc :=
  .failedExecution ("Exception encountered. Exception: " ++ e.text)

/-- Modelled from the spec: the exception raised by
`IndexList.empty_list_check` / `SnapshotList.empty_list_check`
(`curator/indexlist.py` and `curator/snapshotlist.py`, absent from the
source tree): the empty-collection guard raises a caller error when the
working identifier collection has zero identifiers (spec section 7,
EmptyCollectionError). -/
def empty_list_error : CuratorExc :=
  .emptyCollection "empty working identifier collection"

/-- A batch identifier collection for indices (`curator.indexlist.IndexList`
at its interface boundary): the ordered working set of index names. -/
structure IndexList where
  indices : List String
  deriving Repr, DecidableEq

/-- A batch identifier collection for snapshots
(`curator.snapshotlist.SnapshotList` at its interface boundary). -/
structure SnapshotList where
  repository : String
  snapshots : List String
  deriving Repr, DecidableEq

/-- Oracle for the cluster-visible state the actions query.  Each field
answers one read-only question `actions.py` asks of the cluster during a
single `do_action` invocation. -/
structure ClusterEnv where
  /-- Which indices the cluster currently reports closed (`filter_closed`). -/
  closed : String → Bool
  /-- Which indices are already at or below the target segment count
  (`filter_forceMerged`). -/
  merged : String → Bool
  /-- Whether `snapshot_running` reports a snapshot in progress. -/
  snapshotRunning : Bool
  /-- Whether the target snapshot repository exists (`repository_exists`). -/
  repoExists : Bool
  /-- Membership of an index in `get_indices` at the k-th re-query of a
  delete convergence loop (k = 1, 2, 3). -/
  stillPresent : Nat → String → Bool
  /-- Whether the k-th `safe_to_snap` poll reports the repository busy. -/
  repoBusy : Nat → Bool
  /-- The state string returned by `snapshot.get` for `get_state`;
  `none` models the snapshot being absent (IndexError path). -/
  snapState : Option String
  /-- Failure detail of `snapshot.delete` on a given snapshot name;
  `none` means the call succeeds. -/
  snapDeleteErr : String → Option String

/-- Modelled from the spec: `filter_closed` (`curator/indexlist.py`, absent
from the source tree) silently drops indices whose current cluster state is
closed (spec section 4.3). -/
def filter_closed (env : ClusterEnv) (l : List String) : List String :=
  l.filter (fun i => !env.closed i)

/-- Modelled from the spec: `filter_forceMerged` (`curator/indexlist.py`,
absent from the source tree) drops indices already at or below the target
segment count per shard (spec section 4.3). -/
def filter_forceMerged (env : ClusterEnv) (l : List String) : List String :=
  l.filter (fun i => !env.merged i)

/-- Modelled from the spec: `to_csv` (`curator/utils.py`, absent from the
source tree) joins the identifiers of a chunk into a single comma-delimited
string (spec section 6). -/
def to_csv (l : List String) : String :=
  String.intercalate "," l

/-- Serialized character length of a chunk: identifiers joined by the
one-character delimiter. -/
def csvLen : List String → Nat
  | [] => 0
  | [x] => x.length
  | x :: y :: xs => x.length + 1 + csvLen (y :: xs)

/-- Accumulator loop of the chunking algorithm: `cur` is the (non-empty)
chunk under construction; an element joins it while neither the count bound
nor the size bound would be violated, otherwise `cur` is closed and the
element starts a new chunk. -/
def chunkGo (mc ms : Nat) (cur : List String) : List String → List (List String)
  | [] => [cur]
  | x :: xs =>
    if cur.length + 1 ≤ mc ∧ csvLen (cur ++ [x]) ≤ ms then
      chunkGo mc ms (cur ++ [x]) xs
    else
      cur :: chunkGo mc ms [x] xs

/-- Chunking with explicit bounds: maximum element count `mc` and maximum
serialized length `ms`. -/
def chunkBy (mc ms : Nat) : List String → List (List String)
  | [] => []
  | x :: xs => chunkGo mc ms [x] xs

/-- Modelled from the spec: `chunk_index_list` (`curator/utils.py`, absent
from the source tree), spec sections 3 and 4.2: split an ordered identifier
sequence into chunks bounded by a maximum element count (default 3000) and
a maximum combined serialized length (default 3 KiB); accumulate while
adding an element violates neither bound, close the chunk on violation; an
element whose own serialized length exceeds the size bound still occupies
its own chunk. -/
def chunk_index_list (l : List String) : List (List String) :=
  chunkBy 3000 3072 l

/-- One accumulated alias operation (`Alias.add` / `Alias.remove`). -/
inductive AliasOp where
  | add (index aliasName : String)
  | remove (index aliasName : String)
  deriving Repr, DecidableEq

/-- Snapshot request body built by `create_snapshot_body`. -/
structure SnapBody where
  indices : List String
  ignore_unavailable : Bool
  include_global_state : Bool
  partialFlag : Bool
  deriving Repr, DecidableEq

/-- One call issued against the cluster capability handle (plus `sleep`,
the engine-side rate-limiting pause, recorded in the trace but not a
cluster call). -/
inductive Call where
  | updateAliases (actions : List AliasOp)
  | putSettings (index : String) (body : String)
  | flush (index : String)
  | close (index : String)
  | openIndices (index : String)
  | deleteIndices (index : String) (masterTimeout : String)
  | forcemerge (index : String) (maxNumSegments : Nat)
  | snapshotCreate (repo name : String) (body : SnapBody) (waitForCompletion : Bool)
  | snapshotDelete (repo name : String)
  | snapshotGetState (repo name : String)
  | snapshotGetPoll (repo : String)
  | testRepoFs (repo : String)
  | repoExistsCheck (repo : String)
  | sleep (seconds : Nat)
  deriving Repr, DecidableEq

/-- Recognizer for snapshot-create calls. -/
def isSnapshotCreate : Call → Bool
  | .snapshotCreate _ _ _ _ => true
  | _ => false

/-- Recognizer for snapshot-delete calls. -/
def isSnapshotDelete : Call → Bool
  | .snapshotDelete _ _ => true
  | _ => false

/-- Recognizer for the in-progress polling calls of `safe_to_snap`. -/
def isSnapshotPoll : Call → Bool
  | .snapshotGetPoll _ => true
  | _ => false

/-- The outcome of one `do_action` invocation: the ordered trace of calls
issued, paired with normal return or the raised exception. -/
def ActResult : Type :=
  List Call × Except CuratorExc Unit

/-! ### Alias (`actions.py` lines 7-81) -/

/-- State of an `Alias` action: the alias name and the accumulated list of
add/remove operations. -/
structure AliasAct where
  aliasName : String
  actions : List AliasOp
  deriving Repr, DecidableEq

/-- `Alias.__init__` (lines 8-25): `if not alias` raises MissingArgument,
otherwise the operation list starts empty. -/
def AliasAct.init (a : String) : Except CuratorExc AliasAct :=
  if a = "" then
    .error (.missingArgument "No value for \"alias\" provided.")
  else
    .ok ⟨a, []⟩

/-- `Alias.add` (lines 27-43): after the collection empty-check, append one
add operation per index of the collection, in order. -/
def AliasAct.add (a : AliasAct) (ilo : IndexList) : Except CuratorExc AliasAct :=
  if ilo.indices.isEmpty then
    .error empty_list_error
  else
    .ok { a with
          actions := a.actions ++ ilo.indices.map (fun i => AliasOp.add i a.aliasName) }

/-- `Alias.remove` (lines 45-60): after the collection empty-check, append
one remove operation per index of the collection, in order. -/
def AliasAct.remove (a : AliasAct) (ilo : IndexList) : Except CuratorExc AliasAct :=
  if ilo.indices.isEmpty then
    .error empty_list_error
  else
    .ok { a with
          actions := a.actions ++ ilo.indices.map (fun i => AliasOp.remove i a.aliasName) }

/-- `Alias.body` (lines 62-71): ActionError when no operations were
accumulated, otherwise the operation list. -/
def AliasAct.body (a : AliasAct) : Except CuratorExc (List AliasOp) :=
  if a.actions.isEmpty then
    .error (.actionError "No \"add\" or \"remove\" operations")
  else
    .ok a.actions

/-- `Alias.do_action` (lines 73-81): one `update_aliases` call with the
result of `body()`.  The `body()` evaluation happens inside the
try/except (line 79), so its ActionError is routed through
`report_failure`. -/
def AliasAct.do_action (a : AliasAct) : ActResult :=
  match a.body with
  | .error e => ([], .error (report_failure e))
  | .ok acts => ([Call.updateAliases acts], .ok ())

/-! ### Allocation (`actions.py` lines 83-143) -/

/-- State of an `Allocation` action: the collection and the pre-built
settings body string. -/
structure AllocationAct where
  index_list : IndexList
  body : String
  deriving Repr, DecidableEq

/-- `Allocation.__init__` (lines 84-121): missing key, then missing value,
then an allocation_type outside require/include/exclude each raise; the
settings body is built at construction.  Construction issues no cluster
call (empty trace). -/
def AllocationAct.init (ilo : IndexList) (key value allocation_type : String) :
    List Call × Except CuratorExc AllocationAct :=
  if key = "" then
    ([], .error (.missingArgument "No value for \"key\" provided"))
  else if value = "" then
    ([], .error (.missingArgument "No value for \"value\" provided"))
  else if allocation_type = "require" ∨ allocation_type = "include" ∨
      allocation_type = "exclude" then
    ([], .ok ⟨ilo, "index.routing.allocation." ++ allocation_type ++ "." ++
                   key ++ "=" ++ value⟩)
  else
    ([], .error (.valueErr (allocation_type ++ " is an invalid allocation_type.  " ++
                            "Must be one of \"require\", \"include\", \"exclude\".")))

/-- `Allocation.do_action` (lines 123-143): `filter_closed`, then the
empty-list check, then one `put_settings` call per chunk. -/
def AllocationAct.do_action (env : ClusterEnv) (a : AllocationAct) : ActResult :=
  let filtered := filter_closed env a.index_list.indices
  if filtered.isEmpty then
    ([], .error empty_list_error)
  else
    ((chunk_index_list filtered).map (fun l => Call.putSettings (to_csv l) a.body),
     .ok ())

/-! ### Close (`actions.py` lines 145-175) -/

/-- State of a `Close` action. -/
structure CloseAct where
  index_list : IndexList
  deriving Repr, DecidableEq

/-- `Close.do_action` (lines 159-175): `filter_closed`, then the empty-list
check, then per chunk a `flush` call followed by a `close` call. -/
def CloseAct.do_action (env : ClusterEnv) (a : CloseAct) : ActResult :=
  let filtered := filter_closed env a.index_list.indices
  if filtered.isEmpty then
    ([], .error empty_list_error)
  else
    ((chunk_index_list filtered).flatMap
       (fun l => [Call.flush (to_csv l), Call.close (to_csv l)]),
     .ok ())

/-! ### DeleteIndices (`actions.py` lines 177-256) -/

/-- State of a `DeleteIndices` action: the collection and the
`master_timeout` string (stringified with an s suffix). -/
structure DeleteIndicesAct where
  index_list : IndexList
  master_timeout : String
  deriving Repr, DecidableEq

/-- `DeleteIndices.__init__` (lines 178-200).  The runtime type check on
`master_timeout` (TypeError unless an int) is subsumed by the `Int`
parameter type here. -/
def DeleteIndicesAct.init (ilo : IndexList) (master_timeout : Int) : DeleteIndicesAct :=
  ⟨ilo, toString master_timeout ++ "s"⟩

/-- `DeleteIndices._verify_result` (lines 202-221): true exactly when no
index of the chunk survived the attempt. -/
def verify_result (result : List String) : Bool :=
  result.isEmpty

/-- The body of `DeleteIndices.__chunk_loop` (lines 223-243): at each
attempt `count` the current working list is deleted in one bulk call, the
still-present subset is re-computed from `get_indices`, and the loop either
finishes (empty subset) or continues on that subset while fuel remains.
Returns the list of working lists passed to delete calls in order, and the
surviving subset after the final attempt (empty on convergence; a non-empty
survivor set is logged, never raised). -/
def chunkLoopGo (env : ClusterEnv) : Nat → Nat → List String →
    List (List String) × List String
  | _, 0, wl => ([], wl)
  | count, fuel + 1, wl =>
    let result := wl.filter (fun i => env.stillPresent count i)
    if result.isEmpty then
      ([wl], [])
    else
      let rest := chunkLoopGo env (count + 1) fuel result
      (wl :: rest.1, rest.2)

/-- `DeleteIndices.__chunk_loop` (lines 223-243): `for count in range(1, 4)`,
i.e. attempts 1, 2, 3. -/
def chunkLoop (env : ClusterEnv) (chunk : List String) :
    List (List String) × List String :=
  chunkLoopGo env 1 3 chunk

/-- `DeleteIndices.do_action` (lines 245-256): empty-list check, then the
retry loop over each chunk; each working list of each loop becomes one bulk
delete call.  The loop itself raises nothing, so the action returns
normally. -/
def DeleteIndicesAct.do_action (env : ClusterEnv) (a : DeleteIndicesAct) : ActResult :=
  if a.index_list.indices.isEmpty then
    ([], .error empty_list_error)
  else
    ((chunk_index_list a.index_list.indices).flatMap
       (fun l => (chunkLoop env l).1.map
         (fun wl => Call.deleteIndices (to_csv wl) a.master_timeout)),
     .ok ())

/-! ### ForceMerge (`actions.py` lines 258-305) -/

/-- State of a `ForceMerge` action. -/
structure ForceMergeAct where
  index_list : IndexList
  max_num_segments : Nat
  delay : Nat
  deriving Repr, DecidableEq

/-- `ForceMerge.__init__` (lines 259-280): `if not max_num_segments`
(absent or zero) raises MissingArgument.  Construction issues no cluster
call. -/
def ForceMergeAct.init (ilo : IndexList) (max_num_segments : Option Nat) (delay : Nat) :
    List Call × Except CuratorExc ForceMergeAct :=
  match max_num_segments with
  | none => ([], .error (.missingArgument "Missing value for \"max_num_segments\""))
  | some 0 => ([], .error (.missingArgument "Missing value for \"max_num_segments\""))
  | some (n + 1) => ([], .ok ⟨ilo, n + 1, delay⟩)

/-- `ForceMerge.do_action` (lines 282-305): empty-list check first, then
`filter_forceMerged`, then one `forcemerge` call per remaining index in
order, pausing `delay` seconds after each call when `delay > 0`. -/
def ForceMergeAct.do_action (env : ClusterEnv) (a : ForceMergeAct) : ActResult :=
  if a.index_list.indices.isEmpty then
    ([], .error empty_list_error)
  else
    ((filter_forceMerged env a.index_list.indices).flatMap
       (fun i => Call.forcemerge i a.max_num_segments ::
                 (if 0 < a.delay then [Call.sleep a.delay] else [])),
     .ok ())

/-! ### Open (`actions.py` lines 307-332) -/

/-- State of an `Open` action. -/
structure OpenAct where
  index_list : IndexList
  deriving Repr, DecidableEq

/-- `Open.do_action` (lines 321-332): empty-list check, then one `open`
call per chunk. -/
def OpenAct.do_action (a : OpenAct) : ActResult :=
  if a.index_list.indices.isEmpty then
    ([], .error empty_list_error)
  else
    ((chunk_index_list a.index_list.indices).map (fun l => Call.openIndices (to_csv l)),
     .ok ())

/-! ### Replicas (`actions.py` lines 334-377) -/

/-- State of a `Replicas` action. -/
structure ReplicasAct where
  index_list : IndexList
  count : Nat
  deriving Repr, DecidableEq

/-- `Replicas.__init__` (lines 335-355): `count == 0` is explicitly
accepted; an absent count raises MissingArgument. -/
def ReplicasAct.init (ilo : IndexList) (count : Option Nat) :
    Except CuratorExc ReplicasAct :=
  match count with
  | none => .error (.missingArgument "Missing value for \"count\"")
  | some n => .ok ⟨ilo, n⟩

/-- `Replicas.do_action` (lines 357-377): empty-list check FIRST, then
`filter_closed` (no second emptiness check), then one `put_settings` call
per chunk of the filtered list. -/
def ReplicasAct.do_action (env : ClusterEnv) (a : ReplicasAct) : ActResult :=
  if a.index_list.indices.isEmpty then
    ([], .error empty_list_error)
  else
    let filtered := filter_closed env a.index_list.indices
    ((chunk_index_list filtered).map
       (fun l => Call.putSettings (to_csv l) ("number_of_replicas=" ++ toString a.count)),
     .ok ())

/-! ### DeleteSnapshots (`actions.py` lines 379-425) -/

/-- State of a `DeleteSnapshots` action. -/
structure DeleteSnapshotsAct where
  snapshot_list : SnapshotList
  repository : String
  retry_interval : Nat
  retry_count : Nat
  deriving Repr, DecidableEq

/-- `DeleteSnapshots.__init__` (lines 380-403): the repository is taken
from the snapshot collection. -/
def DeleteSnapshotsAct.init (slo : SnapshotList) (retry_interval retry_count : Nat) :
    DeleteSnapshotsAct :=
  ⟨slo, slo.repository, retry_interval, retry_count⟩

/-- Modelled from the spec: the polling loop of `safe_to_snap`
(`curator/utils.py`, absent from the source tree), spec section 4.5: poll
the repository in-progress status at attempts `count, count+1, ...` while
fuel remains; report free at the first poll not in progress, busy once the
attempts are exhausted; wait `interval` seconds between consecutive
polls. -/
def safeToSnapGo (env : ClusterEnv) (repo : String) (interval : Nat) :
    Nat → Nat → List Call × Bool
  | _, 0 => ([], false)
  | count, 1 =>
    if env.repoBusy count then
      ([Call.snapshotGetPoll repo], false)
    else
      ([Call.snapshotGetPoll repo], true)
  | count, fuel + 2 =>
    if env.repoBusy count then
      let rest := safeToSnapGo env repo interval (count + 1) (fuel + 1)
      (Call.snapshotGetPoll repo :: Call.sleep interval :: rest.1, rest.2)
    else
      ([Call.snapshotGetPoll repo], true)

/-- Modelled from the spec: `safe_to_snap` (`curator/utils.py`, absent from
the source tree): up to `retry_count` polls starting at attempt 1. -/
def safe_to_snap (env : ClusterEnv) (repo : String) (interval retry_count : Nat) :
    List Call × Bool :=
  safeToSnapGo env repo interval 1 retry_count

/-- The per-snapshot deletion loop of `DeleteSnapshots.do_action`
(lines 419-425): one `snapshot.delete` call per name in order; a failing
call aborts the remaining names through `report_failure`. -/
def deleteSnapshotsLoop (env : ClusterEnv) (repo : String) :
    List String → ActResult
  | [] => ([], .ok ())
  | s :: ss =>
    match env.snapDeleteErr s with
    | some m => ([Call.snapshotDelete repo s], .error (report_failure (.curatorException m)))
    | none =>
      let rest := deleteSnapshotsLoop env repo ss
      (Call.snapshotDelete repo s :: rest.1, rest.2)

/-- `DeleteSnapshots.do_action` (lines 405-425): empty-list check, then the
`safe_to_snap` poll; if the repository stays busy raise FailedExecution with
zero delete calls issued, otherwise delete each snapshot individually. -/
def DeleteSnapshotsAct.do_action (env : ClusterEnv) (a : DeleteSnapshotsAct) : ActResult :=
  if a.snapshot_list.snapshots.isEmpty then
    ([], .error empty_list_error)
  else
    let poll := safe_to_snap env a.repository a.retry_interval a.retry_count
    if poll.2 then
      let rest := deleteSnapshotsLoop env a.repository a.snapshot_list.snapshots
      (poll.1 ++ rest.1, rest.2)
    else
      (poll.1, .error (.failedExecution
        "Unable to delete snapshot(s) because a snapshot is in state \"IN_PROGRESS\""))

/-! ### Snapshot (`actions.py` lines 427-541) -/

/-- State of a `Snapshot` action. -/
structure SnapshotAct where
  name : String
  repository : String
  wait_for_completion : Bool
  skip_repo_fs_check : Bool
  body : SnapBody
  deriving Repr, DecidableEq

/-- Modelled from the spec: `create_snapshot_body` (`curator/utils.py`,
absent from the source tree) packages the collection indices and the three
flags into the creation request body (spec section 6). -/
def create_snapshot_body (indices : List String)
    (ignore_unavailable include_global_state partialFlag : Bool) : SnapBody :=
  ⟨indices, ignore_unavailable, include_global_state, partialFlag⟩

/-- Modelled from the spec: `parse_snapshot_name` (`curator/utils.py`,
absent from the source tree); the spec does not describe any transformation
of the provided name, so it is modelled as the identity. -/
def parse_snapshot_name (name : String) : String :=
  name

/-- `Snapshot.__init__` (lines 428-490): the `repository_exists` check is a
cluster read issued at construction; a missing repository raises
ActionError, then a missing name raises MissingArgument; the request body
is built at construction from the collection indices (no emptiness
check). -/
def SnapshotAct.init (env : ClusterEnv) (ilo : IndexList) (repository name : String)
    (ignore_unavailable include_global_state partialFlag wait_for_completion
     skip_repo_fs_check : Bool) :
    List Call × Except CuratorExc SnapshotAct :=
  if !env.repoExists then
    ([Call.repoExistsCheck repository],
     .error (.actionError ("Cannot snapshot indices to missing repository: " ++ repository)))
  else if name = "" then
    ([Call.repoExistsCheck repository],
     .error (.missingArgument "No value for \"name\" provided."))
  else
    ([Call.repoExistsCheck repository],
     .ok ⟨parse_snapshot_name name, repository, wait_for_completion, skip_repo_fs_check,
          create_snapshot_body ilo.indices ignore_unavailable include_global_state
            partialFlag⟩)

/-- `Snapshot.do_action` (lines 519-541): optional repository filesystem
check, then the `snapshot_running` mutual-exclusion guard — when it reports
in progress, SnapshotInProgress is raised with no create call issued —
otherwise one `snapshot.create` call, followed (when waiting for
completion) by the `report_state` poll, whose absent-snapshot failure is
routed through `report_failure`. -/
def SnapshotAct.do_action (env : ClusterEnv) (a : SnapshotAct) : ActResult :=
  let pre := if a.skip_repo_fs_check then [] else [Call.testRepoFs a.repository]
  if env.snapshotRunning then
    (pre, .error (.snapshotInProgress "Snapshot already in progress."))
  else
    let calls := pre ++ [Call.snapshotCreate a.repository a.name a.body
                           a.wait_for_completion]
    if a.wait_for_completion then
      match env.snapState with
      | some _ => (calls ++ [Call.snapshotGetState a.repository a.name], .ok ())
      | none =>
        (calls ++ [Call.snapshotGetState a.repository a.name],
         .error (report_failure (.curatorException
           ("Snapshot \"" ++ a.name ++ "\" not found in repository \"" ++
            a.repository ++ "\""))))
    else
      (calls, .ok ())

/-! ### Shared lemmas -/

theorem chunkGo_flatten (mc ms : Nat) (cur xs : List String) :
    (chunkGo mc ms cur xs).flatten = cur ++ xs := by
  induction xs generalizing cur with
  | nil => simp [chunkGo]
  | cons x xs ih =>
    rw [chunkGo]
    split
    · rw [ih]; simp
    · simp [ih]

theorem chunkGo_bounds (mc ms : Nat) (hmc : 1 ≤ mc) (cur xs : List String)
    (hc1 : cur ≠ []) (hc2 : cur.length ≤ mc)
    (hc3 : csvLen cur ≤ ms ∨ ∃ x, cur = [x] ∧ ms < x.length) :
    ∀ c ∈ chunkGo mc ms cur xs, c ≠ [] ∧ c.length ≤ mc ∧
      (csvLen c ≤ ms ∨ ∃ x, c = [x] ∧ ms < x.length) := by
  induction xs generalizing cur with
  | nil =>
    intro c hc
    simp only [chunkGo, List.mem_singleton] at hc
    subst hc
    exact ⟨hc1, hc2, hc3⟩
  | cons x xs ih =>
    intro c hc
    rw [chunkGo] at hc
    split at hc
    case isTrue h =>
      exact ih (cur ++ [x]) (by simp) (by simpa using h.1) (Or.inl h.2) c hc
    case isFalse h =>
      rcases List.mem_cons.mp hc with rfl | hc
      · exact ⟨hc1, hc2, hc3⟩
      · refine ih [x] (by simp) (by simpa using hmc) ?_ c hc
        rcases le_or_lt x.length ms with h1 | h1
        · left; simpa [csvLen] using h1
        · right; exact ⟨x, rfl, h1⟩

theorem chunkGo_ne_nil (mc ms : Nat) (cur xs : List String) :
    chunkGo mc ms cur xs ≠ [] := by
  induction xs generalizing cur with
  | nil => simp [chunkGo]
  | cons x xs ih =>
    rw [chunkGo]
    split
    · exact ih (cur ++ [x])
    · simp

theorem chunkBy_ne_nil (mc ms : Nat) (l : List String) (h : l ≠ []) :
    chunkBy mc ms l ≠ [] := by
  cases l with
  | nil => exact absurd rfl h
  | cons x xs => exact chunkGo_ne_nil mc ms [x] xs

/-! ### Claim theorems -/

/-- C9: for every identifier sequence and bounds (with a positive count
bound), the chunking primitive produces chunks whose in-order concatenation
is exactly the input (nothing omitted, duplicated or reordered); every
chunk is non-empty and satisfies the element-count bound, and satisfies the
serialized-length bound except when it is a single element whose own
serialized length exceeds it; chunking is a pure function of its input
(deterministic), and `chunk_index_list` is this primitive at the default
bounds 3000 and 3072. -/
theorem chunking_properties (mc ms : Nat) (hmc : 1 ≤ mc) (l : List String) :
    (chunkBy mc ms l).flatten = l ∧
    (∀ c ∈ chunkBy mc ms l, c ≠ [] ∧ c.length ≤ mc ∧
      (csvLen c ≤ ms ∨ ∃ x, c = [x] ∧ ms < x.length)) ∧
    chunk_index_list l = chunkBy 3000 3072 l := by
  refine ⟨?_, ?_, rfl⟩
  · cases l with
    | nil => rfl
    | cons x xs => simpa using chunkGo_flatten mc ms [x] xs
  · cases l with
    | nil => intro c hc; simp [chunkBy] at hc
    | cons x xs =>
      intro c hc
      refine chunkGo_bounds mc ms hmc [x] xs (by simp) (by simpa using hmc) ?_ c hc
      rcases le_or_lt x.length ms with h1 | h1
      · left; simpa [csvLen] using h1
      · right; exact ⟨x, rfl, h1⟩

/-- Witness for C9 at bounds 2 and 5 on a three-element sequence. -/
theorem chunking_properties_witness :
    1 ≤ 2 ∧
    ((chunkBy 2 5 ["aa", "bb", "cc"]).flatten = ["aa", "bb", "cc"] ∧
     (∀ c ∈ chunkBy 2 5 ["aa", "bb", "cc"], c ≠ [] ∧ c.length ≤ 2 ∧
       (csvLen c ≤ 5 ∨ ∃ x, c = [x] ∧ 5 < x.length)) ∧
     chunk_index_list ["aa", "bb", "cc"] = chunkBy 3000 3072 ["aa", "bb", "cc"]) :=
  ⟨by decide, chunking_properties 2 5 (by decide) ["aa", "bb", "cc"]⟩

/-- C1: the delete retry loop issues one bulk delete per attempt, the first
against the whole chunk; after each delete it re-computes the still-present
subset; an empty subset ends the loop with no further delete calls, a
non-empty one becomes the target of the next delete, for at most 3 total
attempts (so convergence on attempt 2 means exactly 2 delete calls, i.e.
call list `[chunk, r1]`); survivors after the 3rd attempt are only
reported, and `do_action` returns normally on any non-empty collection. -/
theorem delete_retry_convergence (env : ClusterEnv) (chunk : List String)
    (a : DeleteIndicesAct) (ha : a.index_list.indices ≠ []) :
    (chunkLoop env chunk =
      (let r1 := chunk.filter (fun i => env.stillPresent 1 i)
       let r2 := r1.filter (fun i => env.stillPresent 2 i)
       let r3 := r2.filter (fun i => env.stillPresent 3 i)
       if r1.isEmpty then ([chunk], [])
       else if r2.isEmpty then ([chunk, r1], [])
       else ([chunk, r1, r2], r3))) ∧
    (DeleteIndicesAct.do_action env a).2 = .ok () := by
  constructor
  · simp only [chunkLoop, chunkLoopGo]
    split_ifs with h1 h2 h3 <;> simp_all [List.isEmpty_iff]
  · simp [DeleteIndicesAct.do_action, ha]

/-- Oracle for the C1 witness: index "a" is still present after the first
delete attempt and gone after the second. -/
def envRetry : ClusterEnv :=
  ⟨fun _ => false, fun _ => false, false, true,
   fun k i => k = 1 && i = "a", fun _ => false, some "SUCCESS", fun _ => none⟩

/-- Witness for C1: a chunk converging on attempt 2 gets exactly the two
delete calls `[["a", "b"], ["a"]]`. -/
theorem delete_retry_convergence_witness :
    (⟨⟨["x"]⟩, "30s"⟩ : DeleteIndicesAct).index_list.indices ≠ [] ∧
    ((chunkLoop envRetry ["a", "b"] =
      (let r1 := ["a", "b"].filter (fun i => envRetry.stillPresent 1 i)
       let r2 := r1.filter (fun i => envRetry.stillPresent 2 i)
       let r3 := r2.filter (fun i => envRetry.stillPresent 3 i)
       if r1.isEmpty then ([["a", "b"]], [])
       else if r2.isEmpty then ([["a", "b"], r1], [])
       else ([["a", "b"], r1, r2], r3))) ∧
     (DeleteIndicesAct.do_action envRetry ⟨⟨["x"]⟩, "30s"⟩).2 = .ok ()) :=
  ⟨by decide, delete_retry_convergence envRetry ["a", "b"] ⟨⟨["x"]⟩, "30s"⟩ (by decide)⟩

/-- C2: when the snapshot-in-progress check reports a snapshot running,
`Snapshot.do_action` raises the distinguished SnapshotInProgress error and
issues zero snapshot-create calls. -/
theorem snapshot_mutex_guard (env : ClusterEnv) (a : SnapshotAct)
    (h : env.snapshotRunning = true) :
    (SnapshotAct.do_action env a).2 =
      .error (.snapshotInProgress "Snapshot already in progress.") ∧
    (SnapshotAct.do_action env a).1.countP isSnapshotCreate = 0 := by
  constructor
  · simp [SnapshotAct.do_action, h]
  · by_cases hs : a.skip_repo_fs_check <;>
      simp [SnapshotAct.do_action, h, hs, isSnapshotCreate]

/-- Oracle for the C2 witness: a snapshot is in progress. -/
def envBusySnap : ClusterEnv :=
  ⟨fun _ => false, fun _ => false, true, true, fun _ _ => false, fun _ => false,
   some "SUCCESS", fun _ => none⟩

/-- Witness for C2 on a concrete snapshot action. -/
theorem snapshot_mutex_guard_witness :
    envBusySnap.snapshotRunning = true ∧
    ((SnapshotAct.do_action envBusySnap
        ⟨"snap1", "repo1", true, false, ⟨["i1"], false, true, false⟩⟩).2 =
      .error (.snapshotInProgress "Snapshot already in progress.") ∧
     (SnapshotAct.do_action envBusySnap
        ⟨"snap1", "repo1", true, false, ⟨["i1"], false, true, false⟩⟩).1.countP
        isSnapshotCreate = 0) :=
  ⟨rfl, snapshot_mutex_guard envBusySnap
    ⟨"snap1", "repo1", true, false, ⟨["i1"], false, true, false⟩⟩ rfl⟩

/-- Quiet oracle: no snapshot running, repository present, nothing closed or
merged, polls free, deletes succeeding. -/
def envQuiet : ClusterEnv :=
  ⟨fun _ => false, fun _ => false, false, true, fun _ _ => false, fun _ => false,
   some "SUCCESS", fun _ => none⟩

/-- The snapshot action `SnapshotAct.init` builds from an EMPTY index
collection: construction succeeds, because `Snapshot.__init__` performs no
emptiness check. -/
def snapshotOfEmpty : List Call × Except CuratorExc SnapshotAct :=
  SnapshotAct.init envQuiet ⟨[]⟩ "repo1" "snap1" false true false false true

/-- C3 counterexample: the Snapshot variant has no empty-collection guard.
Built from an empty index collection, construction succeeds and `do_action`
issues a snapshot-create call and returns normally, instead of raising the
empty-collection error with zero cluster calls. -/
theorem empty_guard_counterexample :
    snapshotOfEmpty =
      ([Call.repoExistsCheck "repo1"],
       .ok ⟨"snap1", "repo1", false, true, ⟨[], false, true, false⟩⟩) ∧
    SnapshotAct.do_action envQuiet
        ⟨"snap1", "repo1", false, true, ⟨[], false, true, false⟩⟩ =
      ([Call.snapshotCreate "repo1" "snap1" ⟨[], false, true, false⟩ false], .ok ()) :=
  ⟨rfl, rfl⟩

/-- C3 amended: the empty-collection guard holds for Allocation, Close,
DeleteIndices, ForceMerge, Open, Replicas (index collections) and
DeleteSnapshots (snapshot collection): their `do_action` on an empty
working collection raises the empty-collection error with zero cluster
calls.  Alias with zero accumulated operations instead fails through the
uniform execution failure (still zero cluster calls), and Snapshot has no
guard at all: with no snapshot running it issues its snapshot-create call
even for an empty collection. -/
theorem empty_guard_amended (env : ClusterEnv)
    (al : AllocationAct) (cl : CloseAct) (d : DeleteIndicesAct) (f : ForceMergeAct)
    (op : OpenAct) (r : ReplicasAct) (ds : DeleteSnapshotsAct)
    (aa : AliasAct) (sn : SnapshotAct)
    (hal : al.index_list.indices = []) (hcl : cl.index_list.indices = [])
    (hd : d.index_list.indices = []) (hf : f.index_list.indices = [])
    (hop : op.index_list.indices = []) (hr : r.index_list.indices = [])
    (hds : ds.snapshot_list.snapshots = []) (haa : aa.actions = [])
    (hrun : env.snapshotRunning = false) :
    AllocationAct.do_action env al = ([], .error empty_list_error) ∧
    CloseAct.do_action env cl = ([], .error empty_list_error) ∧
    DeleteIndicesAct.do_action env d = ([], .error empty_list_error) ∧
    ForceMergeAct.do_action env f = ([], .error empty_list_error) ∧
    OpenAct.do_action op = ([], .error empty_list_error) ∧
    ReplicasAct.do_action env r = ([], .error empty_list_error) ∧
    DeleteSnapshotsAct.do_action env ds = ([], .error empty_list_error) ∧
    AliasAct.do_action aa =
      ([], .error (report_failure (.actionError "No \"add\" or \"remove\" operations"))) ∧
    (SnapshotAct.do_action env sn).1.countP isSnapshotCreate = 1 := by
  refine ⟨?_, ?_, ?_, ?_, ?_, ?_, ?_, ?_, ?_⟩
  · simp [AllocationAct.do_action, filter_closed, hal]
  · simp [CloseAct.do_action, filter_closed, hcl]
  · simp [DeleteIndicesAct.do_action, hd]
  · simp [ForceMergeAct.do_action, hf]
  · simp [OpenAct.do_action, hop]
  · simp [ReplicasAct.do_action, hr]
  · simp [DeleteSnapshotsAct.do_action, hds]
  · simp [AliasAct.do_action, AliasAct.body, haa]
  · by_cases hw : sn.wait_for_completion <;>
      by_cases hs : sn.skip_repo_fs_check <;>
      cases hq : env.snapState <;>
      simp [SnapshotAct.do_action, hrun, hw, hs, hq, isSnapshotCreate]

/-- Witness for the amended C3 at concrete empty-collection action states. -/
theorem empty_guard_amended_witness :
    (⟨⟨[]⟩, "b"⟩ : AllocationAct).index_list.indices = [] ∧
    (AllocationAct.do_action envQuiet ⟨⟨[]⟩, "b"⟩ = ([], .error empty_list_error) ∧
     CloseAct.do_action envQuiet ⟨⟨[]⟩⟩ = ([], .error empty_list_error) ∧
     DeleteIndicesAct.do_action envQuiet ⟨⟨[]⟩, "30s"⟩ = ([], .error empty_list_error) ∧
     ForceMergeAct.do_action envQuiet ⟨⟨[]⟩, 2, 0⟩ = ([], .error empty_list_error) ∧
     OpenAct.do_action ⟨⟨[]⟩⟩ = ([], .error empty_list_error) ∧
     ReplicasAct.do_action envQuiet ⟨⟨[]⟩, 0⟩ = ([], .error empty_list_error) ∧
     DeleteSnapshotsAct.do_action envQuiet ⟨⟨"repo1", []⟩, "repo1", 120, 3⟩ =
       ([], .error empty_list_error) ∧
     AliasAct.do_action ⟨"al1", []⟩ =
       ([], .error (report_failure (.actionError "No \"add\" or \"remove\" operations"))) ∧
     (SnapshotAct.do_action envQuiet
        ⟨"snap1", "repo1", false, true, ⟨[], false, true, false⟩⟩).1.countP
        isSnapshotCreate = 1) :=
  ⟨rfl, empty_guard_amended envQuiet ⟨⟨[]⟩, "b"⟩ ⟨⟨[]⟩⟩ ⟨⟨[]⟩, "30s"⟩ ⟨⟨[]⟩, 2, 0⟩
    ⟨⟨[]⟩⟩ ⟨⟨[]⟩, 0⟩ ⟨⟨"repo1", []⟩, "repo1", 120, 3⟩ ⟨"al1", []⟩
    ⟨"snap1", "repo1", false, true, ⟨[], false, true, false⟩⟩
    rfl rfl rfl rfl rfl rfl rfl rfl rfl⟩

/-- Oracle reporting every index closed and already force-merged. -/
def envAllClosed : ClusterEnv :=
  ⟨fun _ => true, fun _ => true, false, true, fun _ _ => false, fun _ => false,
   some "SUCCESS", fun _ => none⟩

/-- C4 counterexample: Replicas checks emptiness BEFORE `filter_closed`;
when filtering empties a non-empty collection it does not fail fast — it
issues zero cluster calls and returns normally. -/
theorem post_filter_guard_counterexample :
    ReplicasAct.do_action envAllClosed ⟨⟨["idx1"]⟩, 2⟩ = ([], .ok ()) := rfl

/-- C4 amended: only Allocation and Close re-apply the empty-collection
guard after their pre-filtering step (raising the empty-collection error
with zero cluster calls when filtering empties the collection); Replicas
and ForceMerge apply the guard before filtering only, so a collection
emptied by filtering produces zero cluster calls and a normal return
instead of a failure. -/
theorem post_filter_guard_amended (env : ClusterEnv)
    (al : AllocationAct) (cl : CloseAct) (r : ReplicasAct) (f : ForceMergeAct)
    (hal : filter_closed env al.index_list.indices = [])
    (hcl : filter_closed env cl.index_list.indices = [])
    (hr1 : r.index_list.indices ≠ [])
    (hr2 : filter_closed env r.index_list.indices = [])
    (hf1 : f.index_list.indices ≠ [])
    (hf2 : filter_forceMerged env f.index_list.indices = []) :
    AllocationAct.do_action env al = ([], .error empty_list_error) ∧
    CloseAct.do_action env cl = ([], .error empty_list_error) ∧
    ReplicasAct.do_action env r = ([], .ok ()) ∧
    ForceMergeAct.do_action env f = ([], .ok ()) := by
  refine ⟨?_, ?_, ?_, ?_⟩
  · simp [AllocationAct.do_action, hal]
  · simp [CloseAct.do_action, hcl]
  · simp [ReplicasAct.do_action, hr1, hr2, chunk_index_list, chunkBy]
  · simp [ForceMergeAct.do_action, hf1, hf2]

/-- Witness for the amended C4: collections of one closed (and one already
merged) index. -/
theorem post_filter_guard_amended_witness :
    filter_closed envAllClosed (⟨⟨["idx1"]⟩, "b"⟩ : AllocationAct).index_list.indices = [] ∧
    (AllocationAct.do_action envAllClosed ⟨⟨["idx1"]⟩, "b"⟩ = ([], .error empty_list_error) ∧
     CloseAct.do_action envAllClosed ⟨⟨["idx1"]⟩⟩ = ([], .error empty_list_error) ∧
     ReplicasAct.do_action envAllClosed ⟨⟨["idx1"]⟩, 2⟩ = ([], .ok ()) ∧
     ForceMergeAct.do_action envAllClosed ⟨⟨["idx1"]⟩, 2, 0⟩ = ([], .ok ())) :=
  ⟨rfl, post_filter_guard_amended envAllClosed ⟨⟨["idx1"]⟩, "b"⟩ ⟨⟨["idx1"]⟩⟩
    ⟨⟨["idx1"]⟩, 2⟩ ⟨⟨["idx1"]⟩, 2, 0⟩ rfl rfl (by decide) rfl (by decide) rfl⟩

/-- C5 counterexample: `Alias.do_action` with zero accumulated operations
evaluates `body()` inside its try/except, so the zero-operations
ActionError surfaces as the UNIFORM execution failure, not as a
distinguished precondition error (cluster calls issued: zero). -/
theorem alias_empty_ops_counterexample :
    AliasAct.do_action ⟨"al1", []⟩ =
      ([], .error (.failedExecution
        "Exception encountered. Exception: No \"add\" or \"remove\" operations")) := rfl

/-- C5 amended: `Alias.do_action` with zero accumulated operations issues
zero cluster calls and raises the uniform execution failure wrapping the
zero-operations ActionError of `body()` (which runs inside the execution
try-block), rather than a distinguished precondition error. -/
theorem alias_empty_ops_amended (a : AliasAct) (h : a.actions = []) :
    AliasAct.do_action a =
      ([], .error (report_failure (.actionError "No \"add\" or \"remove\" operations"))) := by
  simp [AliasAct.do_action, AliasAct.body, h]

/-- Witness for the amended C5 on a concrete operation-free alias action. -/
theorem alias_empty_ops_amended_witness :
    (⟨"al1", []⟩ : AliasAct).actions = [] ∧
    AliasAct.do_action ⟨"al1", []⟩ =
      ([], .error (report_failure (.actionError "No \"add\" or \"remove\" operations"))) :=
  ⟨rfl, alias_empty_ops_amended ⟨"al1", []⟩ rfl⟩

/-- C6: `add` on collection A then `remove` on collection B (both
non-empty) then `do_action` succeeds and submits exactly one
update-aliases request whose body holds all add operations for the indices of A
followed by all remove operations for the indices of B, in accumulation
order. -/
theorem alias_single_request (al : String) (A B : IndexList)
    (hal : al ≠ "") (hA : A.indices ≠ []) (hB : B.indices ≠ []) :
    ∃ a2 : AliasAct,
      ((AliasAct.init al).bind (fun a0 => a0.add A)).bind (fun a1 => a1.remove B) =
        .ok a2 ∧
      a2.actions = A.indices.map (fun i => AliasOp.add i al) ++
        B.indices.map (fun i => AliasOp.remove i al) ∧
      AliasAct.do_action a2 =
        ([Call.updateAliases (A.indices.map (fun i => AliasOp.add i al) ++
            B.indices.map (fun i => AliasOp.remove i al))], .ok ()) := by
  refine ⟨⟨al, A.indices.map (fun i => AliasOp.add i al) ++
            B.indices.map (fun i => AliasOp.remove i al)⟩, ?_, rfl, ?_⟩
  · simp [AliasAct.init, hal, AliasAct.add, AliasAct.remove, Except.bind,
      List.isEmpty_iff, hA, hB]
  · have hmap : (A.indices.map (fun i => AliasOp.add i al) ++
        B.indices.map (fun i => AliasOp.remove i al)) ≠ [] := by
      simp [hA]
    simp [AliasAct.do_action, AliasAct.body, List.isEmpty_iff, hmap]

/-- Witness for C6 on singleton collections. -/
theorem alias_single_request_witness :
    ("al1" : String) ≠ "" ∧ (⟨["i1"]⟩ : IndexList).indices ≠ [] ∧
    (⟨["i2"]⟩ : IndexList).indices ≠ [] ∧
    (∃ a2 : AliasAct,
      ((AliasAct.init "al1").bind (fun a0 => a0.add ⟨["i1"]⟩)).bind
          (fun a1 => a1.remove ⟨["i2"]⟩) = .ok a2 ∧
      a2.actions = (⟨["i1"]⟩ : IndexList).indices.map (fun i => AliasOp.add i "al1") ++
        (⟨["i2"]⟩ : IndexList).indices.map (fun i => AliasOp.remove i "al1") ∧
      AliasAct.do_action a2 =
        ([Call.updateAliases ((⟨["i1"]⟩ : IndexList).indices.map
            (fun i => AliasOp.add i "al1") ++
            (⟨["i2"]⟩ : IndexList).indices.map (fun i => AliasOp.remove i "al1"))],
         .ok ())) :=
  ⟨by decide, by decide, by decide,
   alias_single_request "al1" ⟨["i1"]⟩ ⟨["i2"]⟩ (by decide) (by decide) (by decide)⟩

/-- C7: constructor validation is front-loaded and issues no cluster call:
Allocation with an allocation_type outside require/include/exclude raises
ValueError, with a missing key or value raises MissingArgument, and
ForceMerge without max_num_segments raises MissingArgument — all with an
empty call trace. -/
theorem construction_validation (ilo : IndexList) (k v t : String) (d : Nat)
    (hk : k ≠ "") (hv : v ≠ "")
    (ht : ¬(t = "require" ∨ t = "include" ∨ t = "exclude")) :
    AllocationAct.init ilo k v t =
      ([], .error (.valueErr (t ++ " is an invalid allocation_type.  " ++
        "Must be one of \"require\", \"include\", \"exclude\"."))) ∧
    AllocationAct.init ilo "" v t =
      ([], .error (.missingArgument "No value for \"key\" provided")) ∧
    AllocationAct.init ilo k "" t =
      ([], .error (.missingArgument "No value for \"value\" provided")) ∧
    ForceMergeAct.init ilo none d =
      ([], .error (.missingArgument "Missing value for \"max_num_segments\"")) := by
  refine ⟨?_, ?_, ?_, rfl⟩
  · simp [AllocationAct.init, hk, hv, ht]
  · simp [AllocationAct.init]
  · simp [AllocationAct.init, hk]

/-- Witness for C7 with the invalid type "invalid". -/
theorem construction_validation_witness :
    ("k1" : String) ≠ "" ∧ ("v1" : String) ≠ "" ∧
    ¬(("invalid" : String) = "require" ∨ ("invalid" : String) = "include" ∨
      ("invalid" : String) = "exclude") ∧
    (AllocationAct.init ⟨["i1"]⟩ "k1" "v1" "invalid" =
      ([], .error (.valueErr (("invalid" : String) ++ " is an invalid allocation_type.  " ++
        "Must be one of \"require\", \"include\", \"exclude\"."))) ∧
     AllocationAct.init ⟨["i1"]⟩ "" "v1" "invalid" =
      ([], .error (.missingArgument "No value for \"key\" provided")) ∧
     AllocationAct.init ⟨["i1"]⟩ "k1" "" "invalid" =
      ([], .error (.missingArgument "No value for \"value\" provided")) ∧
     ForceMergeAct.init ⟨["i1"]⟩ none 0 =
      ([], .error (.missingArgument "Missing value for \"max_num_segments\""))) :=
  ⟨by decide, by decide, by decide,
   construction_validation ⟨["i1"]⟩ "k1" "v1" "invalid" 0 (by decide) (by decide)
     (by decide)⟩

/-- C10: Replicas accepts a replica count of zero at construction (while an
absent count raises MissingArgument before any cluster call), and its
`do_action` on a count-zero action issues only put-settings calls whose
body is `number_of_replicas=0` — at least one when the filtered collection
is non-empty — returning normally. -/
theorem replicas_zero_count (env : ClusterEnv) (ilo : IndexList) (r : ReplicasAct)
    (hc : r.count = 0) (hne : r.index_list.indices ≠ [])
    (hfil : filter_closed env r.index_list.indices ≠ []) :
    ReplicasAct.init ilo (some 0) = .ok ⟨ilo, 0⟩ ∧
    ReplicasAct.init ilo none = .error (.missingArgument "Missing value for \"count\"") ∧
    (∀ c ∈ (ReplicasAct.do_action env r).1,
      ∃ l, c = Call.putSettings (to_csv l) "number_of_replicas=0") ∧
    (ReplicasAct.do_action env r).1 ≠ [] ∧
    (ReplicasAct.do_action env r).2 = .ok () := by
  refine ⟨rfl, rfl, ?_, ?_, ?_⟩
  · intro c hcm
    simp [ReplicasAct.do_action, List.isEmpty_iff, hne] at hcm
    obtain ⟨l, hl, rfl⟩ := hcm
    exact ⟨l, by rw [hc]; rfl⟩
  · have h1 := chunkBy_ne_nil 3000 3072 (filter_closed env r.index_list.indices) hfil
    simp [ReplicasAct.do_action, List.isEmpty_iff, hne, chunk_index_list]
    exact h1
  · simp [ReplicasAct.do_action, List.isEmpty_iff, hne]

/-- Witness for C10 on a one-open-index collection. -/
theorem replicas_zero_count_witness :
    (⟨⟨["i1"]⟩, 0⟩ : ReplicasAct).count = 0 ∧
    (⟨⟨["i1"]⟩, 0⟩ : ReplicasAct).index_list.indices ≠ [] ∧
    filter_closed envQuiet (⟨⟨["i1"]⟩, 0⟩ : ReplicasAct).index_list.indices ≠ [] ∧
    (ReplicasAct.init ⟨["i1"]⟩ (some 0) = .ok ⟨⟨["i1"]⟩, 0⟩ ∧
     ReplicasAct.init ⟨["i1"]⟩ none =
       .error (.missingArgument "Missing value for \"count\"") ∧
     (∀ c ∈ (ReplicasAct.do_action envQuiet ⟨⟨["i1"]⟩, 0⟩).1,
       ∃ l, c = Call.putSettings (to_csv l) "number_of_replicas=0") ∧
     (ReplicasAct.do_action envQuiet ⟨⟨["i1"]⟩, 0⟩).1 ≠ [] ∧
     (ReplicasAct.do_action envQuiet ⟨⟨["i1"]⟩, 0⟩).2 = .ok ()) :=
  ⟨rfl, by decide, by decide,
   replicas_zero_count envQuiet ⟨["i1"]⟩ ⟨⟨["i1"]⟩, 0⟩ rfl (by decide) (by decide)⟩

theorem safeToSnapGo_all_busy (env : ClusterEnv) (repo : String) (interval : Nat) :
    ∀ fuel count, (∀ k, count ≤ k → k < count + fuel → env.repoBusy k = true) →
      (safeToSnapGo env repo interval count fuel).2 = false ∧
      (safeToSnapGo env repo interval count fuel).1.countP isSnapshotPoll = fuel ∧
      (safeToSnapGo env repo interval count fuel).1.countP isSnapshotDelete = 0 := by
  intro fuel
  induction fuel with
  | zero => intro count h; simp [safeToSnapGo]
  | succ n ih =>
    intro count h
    match n with
    | 0 =>
      have hb : env.repoBusy count = true := h count le_rfl (by omega)
      simp [safeToSnapGo, hb, isSnapshotPoll, isSnapshotDelete]
    | m + 1 =>
      have hb : env.repoBusy count = true := h count le_rfl (by omega)
      obtain ⟨h1, h2, h3⟩ := ih (count + 1) (fun k hk1 hk2 => h k (by omega) (by omega))
      simp [safeToSnapGo, hb, isSnapshotPoll, isSnapshotDelete, List.countP_cons,
        h1, h2, h3]

theorem deleteSnapshotsLoop_ok (env : ClusterEnv) (repo : String) (l : List String)
    (h : ∀ s ∈ l, env.snapDeleteErr s = none) :
    deleteSnapshotsLoop env repo l =
      (l.map (fun s => Call.snapshotDelete repo s), .ok ()) := by
  induction l with
  | nil => rfl
  | cons s ss ih =>
    have hs := h s (List.mem_cons_self s ss)
    simp [deleteSnapshotsLoop, hs,
      ih (fun x hx => h x (List.mem_cons_of_mem s hx))]

theorem deleteSnapshotsLoop_abort (env : ClusterEnv) (repo : String)
    (pre : List String) (s : String) (post : List String) (m : String)
    (hpre : ∀ x ∈ pre, env.snapDeleteErr x = none) (hs : env.snapDeleteErr s = some m) :
    deleteSnapshotsLoop env repo (pre ++ s :: post) =
      ((pre ++ [s]).map (fun x => Call.snapshotDelete repo x),
       .error (report_failure (.curatorException m))) := by
  induction pre with
  | nil => simp [deleteSnapshotsLoop, hs]
  | cons x xs ih =>
    have hx := hpre x (by simp)
    simp [deleteSnapshotsLoop, hx, ih (fun y hy => hpre y (by simp [hy]))]

/-- C8: `DeleteSnapshots.do_action` on a non-empty collection first polls
the repository in-progress status up to `retry_count` times.  If every poll
reports busy it raises the distinguished in-progress FailedExecution having
issued `retry_count` polls and zero snapshot-delete calls.  If the poll
reports free, it deletes each snapshot of the collection individually and
in collection order — one delete call per name, not chunked — returning
normally; and a failure of any delete call issues the deletes only up to
and including the failing one, aborting the rest through the uniform
execution-failure path. -/
theorem delete_snapshots_behavior (env : ClusterEnv) (a : DeleteSnapshotsAct)
    (hne : a.snapshot_list.snapshots ≠ []) :
    ((∀ k, 1 ≤ k → k < 1 + a.retry_count → env.repoBusy k = true) →
      DeleteSnapshotsAct.do_action env a =
        ((safe_to_snap env a.repository a.retry_interval a.retry_count).1,
         .error (.failedExecution
           "Unable to delete snapshot(s) because a snapshot is in state \"IN_PROGRESS\"")) ∧
      (DeleteSnapshotsAct.do_action env a).1.countP isSnapshotDelete = 0 ∧
      (DeleteSnapshotsAct.do_action env a).1.countP isSnapshotPoll = a.retry_count) ∧
    ((safe_to_snap env a.repository a.retry_interval a.retry_count).2 = true →
      (∀ s ∈ a.snapshot_list.snapshots, env.snapDeleteErr s = none) →
      DeleteSnapshotsAct.do_action env a =
        ((safe_to_snap env a.repository a.retry_interval a.retry_count).1 ++
          a.snapshot_list.snapshots.map (fun s => Call.snapshotDelete a.repository s),
         .ok ())) ∧
    (∀ pre s post m, a.snapshot_list.snapshots = pre ++ s :: post →
      (∀ x ∈ pre, env.snapDeleteErr x = none) → env.snapDeleteErr s = some m →
      (safe_to_snap env a.repository a.retry_interval a.retry_count).2 = true →
      DeleteSnapshotsAct.do_action env a =
        ((safe_to_snap env a.repository a.retry_interval a.retry_count).1 ++
          (pre ++ [s]).map (fun x => Call.snapshotDelete a.repository x),
         .error (report_failure (.curatorException m)))) := by
  refine ⟨?_, ?_, ?_⟩
  · intro h
    obtain ⟨h1, h2, h3⟩ :=
      safeToSnapGo_all_busy env a.repository a.retry_interval a.retry_count 1 h
    refine ⟨?_, ?_, ?_⟩
    · simp [DeleteSnapshotsAct.do_action, List.isEmpty_iff, hne, safe_to_snap, h1]
    · simp [DeleteSnapshotsAct.do_action, List.isEmpty_iff, hne, safe_to_snap, h1, h3]
    · simp [DeleteSnapshotsAct.do_action, List.isEmpty_iff, hne, safe_to_snap, h1, h2]
  · intro hsafe hok
    simp [DeleteSnapshotsAct.do_action, List.isEmpty_iff, hne, hsafe,
      deleteSnapshotsLoop_ok env a.repository _ hok]
  · intro pre s post m hsplit hpre hserr hsafe
    simp [DeleteSnapshotsAct.do_action, List.isEmpty_iff, hne, hsafe, hsplit,
      deleteSnapshotsLoop_abort env a.repository pre s post m hpre hserr]

/-- Witness for C8 on a two-snapshot collection under the quiet oracle. -/
theorem delete_snapshots_behavior_witness :
    (⟨⟨"repo1", ["s1", "s2"]⟩, "repo1", 120, 3⟩ :
        DeleteSnapshotsAct).snapshot_list.snapshots ≠ [] ∧
    (((∀ k, 1 ≤ k → k < 1 + (3 : Nat) → envQuiet.repoBusy k = true) →
      DeleteSnapshotsAct.do_action envQuiet ⟨⟨"repo1", ["s1", "s2"]⟩, "repo1", 120, 3⟩ =
        ((safe_to_snap envQuiet "repo1" 120 3).1,
         .error (.failedExecution
           "Unable to delete snapshot(s) because a snapshot is in state \"IN_PROGRESS\"")) ∧
      (DeleteSnapshotsAct.do_action envQuiet
        ⟨⟨"repo1", ["s1", "s2"]⟩, "repo1", 120, 3⟩).1.countP isSnapshotDelete = 0 ∧
      (DeleteSnapshotsAct.do_action envQuiet
        ⟨⟨"repo1", ["s1", "s2"]⟩, "repo1", 120, 3⟩).1.countP isSnapshotPoll = 3) ∧
     ((safe_to_snap envQuiet "repo1" 120 3).2 = true →
      (∀ s ∈ ["s1", "s2"], envQuiet.snapDeleteErr s = none) →
      DeleteSnapshotsAct.do_action envQuiet ⟨⟨"repo1", ["s1", "s2"]⟩, "repo1", 120, 3⟩ =
        ((safe_to_snap envQuiet "repo1" 120 3).1 ++
          ["s1", "s2"].map (fun s => Call.snapshotDelete "repo1" s), .ok ())) ∧
     (∀ pre s post m, ["s1", "s2"] = pre ++ s :: post →
      (∀ x ∈ pre, envQuiet.snapDeleteErr x = none) →
      envQuiet.snapDeleteErr s = some m →
      (safe_to_snap envQuiet "repo1" 120 3).2 = true →
      DeleteSnapshotsAct.do_action envQuiet ⟨⟨"repo1", ["s1", "s2"]⟩, "repo1", 120, 3⟩ =
        ((safe_to_snap envQuiet "repo1" 120 3).1 ++
          (pre ++ [s]).map (fun x => Call.snapshotDelete "repo1" x),
         .error (report_failure (.curatorException m))))) :=
  ⟨by decide,
   delete_snapshots_behavior envQuiet ⟨⟨"repo1", ["s1", "s2"]⟩, "repo1", 120, 3⟩
     (by decide)⟩

end Curator
